import Mathlib

/-
  Verification development for the meeting-sidekick real-time
  transcription-and-insight pipeline.

  The Python sources are embedded shallowly:
  * `SpeechRecognizer._process_audio` (audio/recorder.py) becomes a pure
    step function over an explicit recorder state, with the recognizer
    passed in as a function argument;
  * `MeetingAssistant` (processing/assistant.py) becomes a record of its
    mutable fields, with each method a pure state transformer taking the
    completion collaborator as a function `String → Except Unit String`;
  * `json.loads` is modelled by an executable recursive-descent parser
    over the JSON grammar (objects, arrays, strings with escapes,
    numbers, literals); numbers are exact rationals;
  * numpy's float32 mean-amplitude computation is modelled by exact
    rational arithmetic: mean |sample| / 32768 > 1/100 becomes the
    integer comparison 32768 * n < 100 * sum |sample|.
-/

namespace MeetingSidekick

/-! ## Python string primitives -/

/-- Python `str.strip()`: remove leading and trailing whitespace. -/
def pyStrip (s : String) : String :=
  String.mk (((s.toList.dropWhile Char.isWhitespace).reverse.dropWhile
    Char.isWhitespace).reverse)

/-- Python `str.find(c)`: index of the first occurrence of `c`, `-1` if absent. -/
def pyFind (s : String) (c : Char) : Int :=
  match s.toList.findIdx? (fun a => a = c) with
  | some i => (i : Int)
  | none => -1

/-- Python `str.rfind(c)`: index of the last occurrence of `c`, `-1` if absent. -/
def pyRfind (s : String) (c : Char) : Int :=
  match s.toList.reverse.findIdx? (fun a => a = c) with
  | some i => ((s.toList.length - 1 - i : Nat) : Int)
  | none => -1

/-- Python slice `s[a:b]` for `0 ≤ a` and `0 ≤ b`. -/
def pySlice (s : String) (a b : Int) : String :=
  String.mk ((s.toList.take b.toNat).drop a.toNat)

/-- Python slice `l[-n:]`: the last `min n (length l)` elements, in order. -/
def lastN (n : Nat) (l : List α) : List α :=
  (l.reverse.take n).reverse

/-- Python `" ".join(l)`. -/
def spaceJoin (l : List String) : String :=
  String.intercalate " " l

/-- Python `"\n".join(l)`. -/
def nlJoin (l : List String) : String :=
  String.intercalate "\n" l

/-- `s.startswith(c)` for a single character `c`. -/
def startsWithChar (s : String) (c : Char) : Bool :=
  match s.toList with
  | [] => false
  | a :: _ => a = c

/-- `s.endswith(c)` for a single character `c`. -/
def endsWithChar (s : String) (c : Char) : Bool :=
  match s.toList.reverse with
  | [] => false
  | a :: _ => a = c

/-! ## JSON values and a model of `json.loads` -/

/-- JSON values as produced by `json.loads`; objects keep their key order. -/
inductive Json where
  | null : Json
  | bool : Bool → Json
  | num : ℚ → Json
  | str : String → Json
  | arr : List Json → Json
  | obj : List (String × Json) → Json

/-- JSON whitespace skipping (space, tab, newline, carriage return). -/
def skipWs : List Char → List Char
  | [] => []
  | c :: cs =>
    if c = ' ' ∨ c = '\t' ∨ c = '\n' ∨ c = '\r' then skipWs cs else c :: cs

/-- Value of a hexadecimal digit. -/
def hexVal (c : Char) : Option Nat :=
  if '0' ≤ c ∧ c ≤ '9' then some (c.toNat - 48)
  else if 'a' ≤ c ∧ c ≤ 'f' then some (c.toNat - 87)
  else if 'A' ≤ c ∧ c ≤ 'F' then some (c.toNat - 55)
  else none

/-- One escape sequence after a backslash inside a JSON string. -/
def parseEsc : List Char → Option (Char × List Char)
  | 'u' :: a :: b :: c :: d :: rest =>
    match hexVal a, hexVal b, hexVal c, hexVal d with
    | some ha, some hb, some hc, some hd =>
      some (Char.ofNat (((ha * 16 + hb) * 16 + hc) * 16 + hd), rest)
    | _, _, _, _ => none
  | '"' :: rest => some ('"', rest)
  | '\\' :: rest => some ('\\', rest)
  | '/' :: rest => some ('/', rest)
  | 'b' :: rest => some (Char.ofNat 8, rest)
  | 'f' :: rest => some (Char.ofNat 12, rest)
  | 'n' :: rest => some ('\n', rest)
  | 'r' :: rest => some ('\r', rest)
  | 't' :: rest => some ('\t', rest)
  | _ => none

/-- Body of a JSON string, after the opening quote; returns content and rest. -/
def parseStrAux : Nat → List Char → Option (List Char × List Char)
  | 0, _ => none
  | _, [] => none
  | fuel + 1, c :: rest =>
    if c = '"' then some ([], rest)
    else if c = '\\' then
      match parseEsc rest with
      | some (e, rest2) =>
        match parseStrAux fuel rest2 with
        | some (s, r) => some (e :: s, r)
        | none => none
      | none => none
    else
      match parseStrAux fuel rest with
      | some (s, r) => some (c :: s, r)
      | none => none

/-- Digits to a natural number. -/
def digitsVal (ds : List Char) : Nat :=
  ds.foldl (fun a c => a * 10 + (c.toNat - 48)) 0

/-- A JSON number (sign, integer part, optional fraction and exponent),
as an exact rational. -/
def parseNumber (cs : List Char) : Option (ℚ × List Char) :=
  let (neg, cs1) := match cs with
    | '-' :: r => (true, r)
    | _ => (false, cs)
  let intDs := cs1.takeWhile Char.isDigit
  let cs2 := cs1.dropWhile Char.isDigit
  if intDs.isEmpty then none
  else
    let fracStep : Option (List Char × List Char) := match cs2 with
      | '.' :: r =>
        let ds := r.takeWhile Char.isDigit
        if ds.isEmpty then none else some (ds, r.dropWhile Char.isDigit)
      | _ => some ([], cs2)
    match fracStep with
    | none => none
    | some (fracDs, cs3) =>
      let expStep : Option (Int × List Char) := match cs3 with
        | c :: r =>
          if c = 'e' ∨ c = 'E' then
            let (eneg, r1) := match r with
              | '-' :: r2 => (true, r2)
              | '+' :: r2 => (false, r2)
              | _ => (false, r)
            let eds := r1.takeWhile Char.isDigit
            if eds.isEmpty then none
            else
              let e : Int := (digitsVal eds : Int)
              some (if eneg then -e else e, r1.dropWhile Char.isDigit)
          else some (0, cs3)
        | [] => some (0, cs3)
      match expStep with
      | none => none
      | some (e, cs4) =>
        let mant : ℚ :=
          (digitsVal intDs : ℚ) + (digitsVal fracDs : ℚ) / ((10 : ℚ) ^ fracDs.length)
        let scaled : ℚ :=
          if 0 ≤ e then mant * (10 : ℚ) ^ e.toNat else mant / (10 : ℚ) ^ (-e).toNat
        some (if neg then -scaled else scaled, cs4)

mutual

/-- One JSON value; fuel bounds the recursion depth. -/
def parseValue : Nat → List Char → Option (Json × List Char)
  | 0, _ => none
  | fuel + 1, cs =>
    match skipWs cs with
    | [] => none
    | c :: rest =>
      if c = '"' then
        match parseStrAux (rest.length + 1) rest with
        | some (s, r) => some (Json.str (String.mk s), r)
        | none => none
      else if c = '[' then
        match skipWs rest with
        | ']' :: r2 => some (Json.arr [], r2)
        | cs2 =>
          match parseArrItems fuel cs2 with
          | some (xs, r) => some (Json.arr xs, r)
          | none => none
      else if c = '{' then
        match skipWs rest with
        | '}' :: r2 => some (Json.obj [], r2)
        | cs2 =>
          match parseObjItems fuel cs2 with
          | some (kvs, r) => some (Json.obj kvs, r)
          | none => none
      else if c = 't' then
        match rest with
        | 'r' :: 'u' :: 'e' :: r => some (Json.bool true, r)
        | _ => none
      else if c = 'f' then
        match rest with
        | 'a' :: 'l' :: 's' :: 'e' :: r => some (Json.bool false, r)
        | _ => none
      else if c = 'n' then
        match rest with
        | 'u' :: 'l' :: 'l' :: r => some (Json.null, r)
        | _ => none
      else
        match parseNumber (c :: rest) with
        | some (q, r) => some (Json.num q, r)
        | none => none

/-- Comma-separated array items up to the closing bracket. -/
def parseArrItems : Nat → List Char → Option (List Json × List Char)
  | 0, _ => none
  | fuel + 1, cs =>
    match parseValue fuel cs with
    | none => none
    | some (v, r) =>
      match skipWs r with
      | ',' :: r2 =>
        match parseArrItems fuel r2 with
        | some (xs, r3) => some (v :: xs, r3)
        | none => none
      | ']' :: r2 => some ([v], r2)
      | _ => none

/-- Comma-separated object members up to the closing brace. -/
def parseObjItems : Nat → List Char → Option (List (String × Json) × List Char)
  | 0, _ => none
  | fuel + 1, cs =>
    match skipWs cs with
    | '"' :: rest =>
      match parseStrAux (rest.length + 1) rest with
      | none => none
      | some (k, r) =>
        match skipWs r with
        | ':' :: r2 =>
          match parseValue fuel r2 with
          | none => none
          | some (v, r3) =>
            match skipWs r3 with
            | ',' :: r4 =>
              match parseObjItems fuel r4 with
              | some (kvs, r5) => some ((String.mk k, v) :: kvs, r5)
              | none => none
            | '}' :: r4 => some ([(String.mk k, v)], r4)
            | _ => none
        | _ => none
    | _ => none

end

/-- Model of `json.loads`: parse one JSON value and require that only
whitespace remains. -/
def jsonParse (s : String) : Option Json :=
  match parseValue (2 * s.length + 2) s.toList with
  | some (j, rest) => if (skipWs rest).isEmpty then some j else none
  | none => none

/-! ## Recorder: `SpeechRecognizer._process_audio` (audio/recorder.py)

An audio chunk is the `int16` sample sequence of one `stream.read`; the
recognizer (`self.model.transcribe` followed by `result["text"]`) is an
arbitrary function from samples to text.  One loop iteration that has
dequeued a chunk becomes `processChunk`; a run over a queue of chunks
becomes `processRun`. -/

/-- The mutable recorder state: the window `buffer` and the
`self.transcription` list. -/
structure RecState where
  buffer : List (List Int)
  transcription : List String
deriving DecidableEq

/-- The recorder state at `__init__`. -/
def initRec : RecState := ⟨[], []⟩

/-- Sum of absolute sample values of a flattened window. -/
def sumAbs (samples : List Int) : Nat :=
  (samples.map Int.natAbs).sum

/-- The silence gate `np.abs(audio_np).mean() > silence_threshold` with
`audio_np = samples / 32768.0` and `silence_threshold = 0.01`, as the exact
integer comparison `32768 * n < 100 * Σ|sample|`. -/
def silenceGate (samples : List Int) : Bool :=
  decide (32768 * samples.length < 100 * sumAbs samples)

/-- Result of processing chunks: final state, the sample buffers handed to
the recognizer (one entry per transcription attempt), and the texts passed
to the transcription callback. -/
structure RecResult where
  state : RecState
  attempts : List (List Int)
  emitted : List String
deriving DecidableEq

/-- One `_process_audio` iteration on a dequeued `chunk` (lines 90-114):
append to the buffer; once `len(buffer) > 10`, flatten, apply the silence
gate, transcribe and emit non-empty stripped text, and reset the buffer to
`buffer[-2:]`. -/
def processChunk (transcribe : List Int → String) (st : RecState)
    (chunk : List Int) : RecResult :=
  let buffer := st.buffer ++ [chunk]
  if 10 < buffer.length then
    let audioData := buffer.flatten
    let res : List String × List (List Int) × List String :=
      if silenceGate audioData then
        let text := pyStrip (transcribe audioData)
        if text = "" then (st.transcription, [audioData], [])
        else (st.transcription ++ [text], [audioData], [text])
      else (st.transcription, [], [])
    ⟨⟨lastN 2 buffer, res.1⟩, res.2.1, res.2.2⟩
  else ⟨⟨buffer, st.transcription⟩, [], []⟩

/-- A `_process_audio` run over a queue of chunks, in arrival order,
accumulating the transcription attempts and callback emissions. -/
def processRun (transcribe : List Int → String) :
    List (List Int) → RecState → RecResult
  | [], st => ⟨st, [], []⟩
  | chunk :: rest, st =>
    let r := processChunk transcribe st chunk
    let r2 := processRun transcribe rest r.state
    ⟨r2.state, r.attempts ++ r2.attempts, r.emitted ++ r2.emitted⟩

/-! ## Capture producer: `SpeechRecognizer._capture_audio` (audio/recorder.py) -/

/-- `rate=16000` in `p.open` (line 62). -/
def sampleRate : Nat := 16000

/-- `frames_per_buffer=4000` in `p.open` (line 64). -/
def framesPerBuffer : Nat := 4000

/-- The per-read sample count `stream.read(4000)` (line 69). -/
def readSize : Nat := 4000

/-- `channels=1` in `p.open` (line 61). -/
def numChannels : Nat := 1

/-- `format=pyaudio.paInt16`: 16-bit signed samples (line 60). -/
def sampleBits : Nat := 16

/-- One device read: a frame of `readSize` samples drawn from the device. -/
def captureFrame (device : Nat → Int) : List Int :=
  (List.range readSize).map device

/-! ## Assistant: `MeetingAssistant` (processing/assistant.py)

The mutable fields of the class become a record; each method becomes a
pure state transformer.  The completion collaborator
(`self.client.chat.completions.create` followed by
`response.choices[0].message.content`) is passed in as a function from the
user-turn prompt to `Except Unit String`: `.error ()` models the call
raising, `.ok content` models a returned message.  `time.time()` is the
explicit argument `now`. -/

/-- The `MeetingAssistant` fields set in `__init__`. -/
structure AssistantState where
  meeting_transcript : List String
  current_summary : String
  action_items : Json
  conversation_context : List String
  last_insight_time : ℚ
  insight_cooldown : ℚ
  meeting_title : String

/-- The assistant state after `__init__` (the title is the formatted
current date, passed in here). -/
def initialAssistant (title : String) : AssistantState :=
  { meeting_transcript := []
  , current_summary := ""
  , action_items := Json.arr []
  , conversation_context := []
  , last_insight_time := 0
  , insight_cooldown := 30
  , meeting_title := title }

/-- Python dict lookup on a parsed JSON object (later duplicate keys win,
as in `json.loads`). -/
def lookupKey (kvs : List (String × Json)) (k : String) : Option Json :=
  (kvs.reverse.find? (fun p => p.1 = k)).map Prod.snd

/-- Python `len()` on a JSON value (`TypeError`, modelled as `none`, on
values without a length). -/
def pyLen : Json → Option Nat
  | Json.arr xs => some xs.length
  | Json.obj kvs => some kvs.length
  | Json.str s => some s.length
  | _ => none

/-- The insight-response JSON recovery of `_generate_real_time_insights`
(lines 194-206): parse the whole content when its stripped form starts
with `{` and ends with `}`; otherwise parse the substring from the first
`{` to the last `}`; otherwise fail. -/
def parseInsightJson (content : String) : Option Json :=
  if startsWithChar (pyStrip content) '{' && endsWithChar (pyStrip content) '}' then
    jsonParse content
  else
    let startIdx := pyFind content '{'
    let endIdx := pyRfind content '}' + 1
    if 0 ≤ startIdx ∧ startIdx < endIdx then
      jsonParse (pySlice content startIdx endIdx)
    else none

/-- The insight-acceptance step (lines 208-214): the parsed object must be
truthy, contain an `insights` key, and `len` of its value must be positive;
the accepted value is what the insight callback receives. -/
def extractBatch (content : String) : Option Json :=
  match parseInsightJson content with
  | some (Json.obj kvs) =>
    if kvs.isEmpty then none
    else
      match lookupKey kvs "insights" with
      | some v =>
        match pyLen v with
        | some n => if 0 < n then some v else none
        | none => none
      | none => none
  | _ => none

/-- The user-turn prompt of `_generate_real_time_insights` (lines 166-180). -/
def insightsPrompt (recentContext : String) : String :=
  "\n        Based on the following recent meeting conversation, generate 1-2 highly relevant insights that would help the user contribute meaningfully.\n        \n        These insights should:\n        1. Be directly relevant to the current topic\n        2. Provide valuable information the user could mention\n        3. Be concise and ready to use in conversation (under 100 words)\n        4. Help the user sound more knowledgeable and prepared\n        5. Not repeat information already mentioned\n        \n        Recent conversation:\n        "
    ++ recentContext
    ++ "\n        \n        Format as a JSON object with \"insights\" array containing objects with \"title\" and \"detail\" fields.\n        "

/-- Result of `_generate_real_time_insights`: the new state, whether a
completion-collaborator call was issued, and the values handed to the
insight callback. -/
structure GenResult where
  state : AssistantState
  called : Bool
  batches : List Json

/-- `_generate_real_time_insights` (lines 152-220): skip under cooldown or
with fewer than 3 context segments; otherwise call the collaborator on the
full rolling-context snapshot; on an accepted parse set
`last_insight_time = now` and invoke the callback; on any failure leave the
state unchanged. -/
def generate_real_time_insights (complete : String → Except Unit String)
    (now : ℚ) (st : AssistantState) : GenResult :=
  if now - st.last_insight_time < st.insight_cooldown then ⟨st, false, []⟩
  else if st.conversation_context.length < 3 then ⟨st, false, []⟩
  else
    match complete (insightsPrompt (spaceJoin st.conversation_context)) with
    | Except.error _ => ⟨st, true, []⟩
    | Except.ok content =>
      match extractBatch content with
      | none => ⟨st, true, []⟩
      | some v => ⟨{ st with last_insight_time := now }, true, [v]⟩

/-- The context cap of `add_transcript` (lines 47-48): keep the rolling
context to its last 20 entries once it exceeds 20. -/
def truncateContext (st : AssistantState) : AssistantState :=
  if 20 < st.conversation_context.length then
    { st with conversation_context := lastN 20 st.conversation_context }
  else st

/-- `add_transcript` (lines 33-51): ignore blank segments; append to the
transcript log and the rolling context; truncate the context to its last
20 entries when it exceeds 20; then run the insight step. -/
def add_transcript (complete : String → Except Unit String) (now : ℚ)
    (st : AssistantState) (text_segment : String) : GenResult :=
  if pyStrip text_segment = "" then ⟨st, false, []⟩
  else
    generate_real_time_insights complete now
      (truncateContext { st with
        meeting_transcript := st.meeting_transcript ++ [text_segment]
        conversation_context := st.conversation_context ++ [text_segment] })

/-- A sequence of `add_transcript` calls, each with its own clock reading. -/
def runAdds (complete : String → Except Unit String)
    (inputs : List (ℚ × String)) (st : AssistantState) : AssistantState :=
  inputs.foldl (fun s p => (add_transcript complete p.1 s p.2).state) st

/-- The user-turn prompt of `update_summary` (lines 62-71). -/
def summaryPrompt (prevSummary recentTranscript : String) : String :=
  "\n        Previous summary: " ++ prevSummary
    ++ "\n        \n        New meeting transcript segment: \n        "
    ++ recentTranscript
    ++ "\n        \n        Please update the summary to incorporate this new information. \n        Focus on key points, decisions, and important discussion topics.\n        Keep the summary concise but comprehensive.\n        "

/-- `update_summary` (lines 53-86): on an empty transcript return `""`;
otherwise prompt with the previous summary and the last 10 segments; on
success store and return the response; on a raised call keep the stored
summary and return it (or a fixed apology when it is empty). -/
def update_summary (complete : String → Except Unit String)
    (st : AssistantState) : AssistantState × String :=
  if st.meeting_transcript.isEmpty then (st, "")
  else
    let recentTranscript := spaceJoin (lastN 10 st.meeting_transcript)
    match complete (summaryPrompt st.current_summary recentTranscript) with
    | Except.ok content => ({ st with current_summary := content }, content)
    | Except.error _ =>
      (st, if st.current_summary = "" then
        "Unable to generate summary at this time." else st.current_summary)

/-- The user-turn prompt of `extract_action_items` (lines 97-112). -/
def actionPrompt (fullTranscript : String) : String :=
  "\n        Based on the following meeting transcript, identify all action items.\n        For each action item, extract:\n        1. The responsible person\n        2. The specific task\n        3. The deadline (if mentioned)\n        4. Priority level (if indicated)\n        \n        Format the output as a JSON array of objects with the following structure:\n        [\n            \x7b\"person\": \"Name\", \"task\": \"Task description\", \"deadline\": \"Deadline or null\", \"priority\": \"Priority or null\"\x7d\n        ]\n        \n        Meeting transcript:\n        "
    ++ fullTranscript ++ "\n        "

/-- The sentinel stored on a `json.JSONDecodeError` (line 141). -/
def actionParseSentinel : Json :=
  Json.arr [Json.obj
    [("task", Json.str "Error parsing action items, please check transcript manually")]]

/-- The sentinel returned (but not stored) by the outer handler (line 146). -/
def actionErrorSentinel : Json :=
  Json.arr [Json.obj
    [("task", Json.str "Error extracting action items, please try again later")]]

/-- `extract_action_items` (lines 88-146).  The inner handler catches only
`json.JSONDecodeError`; the `ValueError` raised when no bracketed
substring exists escapes to the outer `except Exception`, which returns a
sentinel without storing it. -/
def extract_action_items (complete : String → Except Unit String)
    (st : AssistantState) : AssistantState × Json :=
  if st.meeting_transcript.isEmpty then (st, Json.arr [])
  else
    match complete (actionPrompt (spaceJoin st.meeting_transcript)) with
    | Except.error _ => (st, actionErrorSentinel)
    | Except.ok content =>
      if startsWithChar (pyStrip content) '[' && endsWithChar (pyStrip content) ']' then
        match jsonParse content with
        | some j => ({ st with action_items := j }, j)
        | none => ({ st with action_items := actionParseSentinel }, actionParseSentinel)
      else
        let startIdx := pyFind content '['
        let endIdx := pyRfind content ']' + 1
        if 0 ≤ startIdx ∧ startIdx < endIdx then
          match jsonParse (pySlice content startIdx endIdx) with
          | some j => ({ st with action_items := j }, j)
          | none => ({ st with action_items := actionParseSentinel }, actionParseSentinel)
        else (st, actionErrorSentinel)

/-- `get_full_transcript` (lines 148-150). -/
def get_full_transcript (st : AssistantState) : String :=
  nlJoin st.meeting_transcript

/-- The dictionary built by `export_meeting_data` (lines 232-238); the
formatted current date is passed in. -/
structure MeetingData where
  title : String
  date : String
  summary : String
  action_items : Json
  transcript : String

/-- `export_meeting_data` (lines 222-240): the exported snapshot of the
session. -/
def export_meeting_data (dateStr : String) (st : AssistantState) : MeetingData :=
  { title := st.meeting_title
  , date := dateStr
  , summary := st.current_summary
  , action_items := st.action_items
  , transcript := get_full_transcript st }

/-! ## Concrete fixtures used by the claim theorems -/

/-- The 25 timed segments used to witness C4. -/
def c4Inputs : List (ℚ × String) :=
  [(0, "s01"), (0, "s02"), (0, "s03"), (0, "s04"), (0, "s05"), (0, "s06"),
   (0, "s07"), (0, "s08"), (0, "s09"), (0, "s10"), (0, "s11"), (0, "s12"),
   (0, "s13"), (0, "s14"), (0, "s15"), (0, "s16"), (0, "s17"), (0, "s18"),
   (0, "s19"), (0, "s20"), (0, "s21"), (0, "s22"), (0, "s23"), (0, "s24"),
   (0, "s25")]

/-- The state used for the C5 counterexample: one transcript segment and a
previously stored action-item list. -/
def c5State : AssistantState :=
  ⟨["we should ship Friday"], "", Json.arr [Json.str "old"], [], 0, 30, "m"⟩

/-- The state used for the C6 witness. -/
def c6State : AssistantState := ⟨["hello"], "prev", Json.arr [], [], 0, 30, "m"⟩

/-- The embedded-JSON completion response of the C7 test. -/
def insightReplyExample : String :=
  "here is the result: \x7b\"insights\":[\x7b\"title\":\"A\",\"detail\":\"B\"\x7d]\x7d thanks"

/-- The pre-state used for C9: three context segments, cooldown elapsed. -/
def c9State : AssistantState := ⟨[], "", Json.arr [], ["a", "b", "c"], 0, 30, "m"⟩

/-- A successful insight response with one insight titled "A". -/
def c9ReplyA : String := "\x7b\"insights\":[\x7b\"title\":\"A\",\"detail\":\"B\"\x7d]\x7d"

/-- A successful insight response with one insight titled "C". -/
def c9ReplyC : String := "\x7b\"insights\":[\x7b\"title\":\"C\",\"detail\":\"D\"\x7d]\x7d"

/-! ## Helper lemmas -/

/-- Below the trigger size the consumer only appends to the window. -/
theorem processChunk_noTrigger (transcribe : List Int → String)
    (st : RecState) (chunk : List Int) (h : st.buffer.length + 1 ≤ 10) :
    processChunk transcribe st chunk
      = ⟨⟨st.buffer ++ [chunk], st.transcription⟩, [], []⟩ := by
  unfold processChunk
  rw [if_neg]
  simp only [List.length_append, List.length_cons, List.length_nil]
  omega

/-- A run decomposes over queue concatenation. -/
theorem processRun_append (transcribe : List Int → String)
    (l1 l2 : List (List Int)) (st : RecState) :
    processRun transcribe (l1 ++ l2) st
      = ⟨(processRun transcribe l2 (processRun transcribe l1 st).state).state,
         (processRun transcribe l1 st).attempts
           ++ (processRun transcribe l2 (processRun transcribe l1 st).state).attempts,
         (processRun transcribe l1 st).emitted
           ++ (processRun transcribe l2 (processRun transcribe l1 st).state).emitted⟩ := by
  induction l1 generalizing st with
  | nil => simp [processRun]
  | cons c rest ih =>
    simp only [List.cons_append, processRun, List.append_eq]
    rw [ih]
    simp [List.append_assoc]

/-- A run that never fills the window just accumulates frames. -/
theorem processRun_fill (transcribe : List Int → String)
    (cs : List (List Int)) (st : RecState)
    (h : st.buffer.length + cs.length ≤ 10) :
    processRun transcribe cs st
      = ⟨⟨st.buffer ++ cs, st.transcription⟩, [], []⟩ := by
  induction cs generalizing st with
  | nil => simp [processRun]
  | cons c rest ih =>
    simp only [processRun]
    rw [processChunk_noTrigger _ _ _ (by simp at h ⊢; omega)]
    rw [ih ⟨st.buffer ++ [c], st.transcription⟩ (by simp at h ⊢; omega)]
    simp

theorem lastN_length_le (n : Nat) (l : List α) : (lastN n l).length ≤ n := by
  simp only [lastN, List.length_reverse, List.length_take]
  exact min_le_left _ _

theorem lastN_of_length_le (n : Nat) (l : List α) (h : l.length ≤ n) :
    lastN n l = l := by
  simp only [lastN]
  rw [List.take_of_length_le (by simpa using h), List.reverse_reverse]

theorem lastN_append_lastN (n : Nat) (l xs : List α) :
    lastN n (lastN n l ++ xs) = lastN n (l ++ xs) := by
  simp only [lastN, List.reverse_append, List.reverse_reverse]
  rw [List.take_append_eq_append_take, List.take_append_eq_append_take,
    List.take_take, Nat.min_eq_left (Nat.sub_le _ _)]

/-- `_generate_real_time_insights` either leaves the state alone or only
stamps `last_insight_time`. -/
theorem generate_state_cases (complete : String → Except Unit String)
    (now : ℚ) (st : AssistantState) :
    (generate_real_time_insights complete now st).state = st ∨
      (generate_real_time_insights complete now st).state
        = { st with last_insight_time := now } := by
  unfold generate_real_time_insights
  split
  · exact Or.inl rfl
  · split
    · exact Or.inl rfl
    · split
      · exact Or.inl rfl
      · split
        · exact Or.inl rfl
        · exact Or.inr rfl

/-- The insight step never touches the rolling context. -/
theorem generate_context_eq (complete : String → Except Unit String)
    (now : ℚ) (st : AssistantState) :
    (generate_real_time_insights complete now st).state.conversation_context
      = st.conversation_context := by
  rcases generate_state_cases complete now st with h | h <;> rw [h]

/-- The insight step never touches the transcript log. -/
theorem generate_log_eq (complete : String → Except Unit String)
    (now : ℚ) (st : AssistantState) :
    (generate_real_time_insights complete now st).state.meeting_transcript
      = st.meeting_transcript := by
  rcases generate_state_cases complete now st with h | h <;> rw [h]

/-- The context cap always produces exactly the last 20 entries. -/
theorem truncateContext_eq (st : AssistantState) :
    (truncateContext st).conversation_context
      = lastN 20 st.conversation_context := by
  unfold truncateContext
  split
  · rfl
  · exact (lastN_of_length_le 20 _ (Nat.le_of_not_lt (by assumption))).symm

/-- The context cap never touches the transcript log. -/
theorem truncateContext_log (st : AssistantState) :
    (truncateContext st).meeting_transcript = st.meeting_transcript := by
  unfold truncateContext
  split <;> rfl

/-- On a non-blank segment, `add_transcript` leaves the rolling context at
exactly the last 20 of the old context plus the new segment. -/
theorem add_transcript_context (complete : String → Except Unit String)
    (now : ℚ) (st : AssistantState) (t : String) (h : ¬ pyStrip t = "") :
    (add_transcript complete now st t).state.conversation_context
      = lastN 20 (st.conversation_context ++ [t]) := by
  unfold add_transcript
  rw [if_neg h, generate_context_eq, truncateContext_eq]

/-- Likewise the transcript log gains exactly the new segment. -/
theorem add_transcript_log (complete : String → Except Unit String)
    (now : ℚ) (st : AssistantState) (t : String) (h : ¬ pyStrip t = "") :
    (add_transcript complete now st t).state.meeting_transcript
      = st.meeting_transcript ++ [t] := by
  unfold add_transcript
  rw [if_neg h, generate_log_eq, truncateContext_log]

/-- Invariant transport for `runAdds`: the final rolling context is the
last 20 of the initial context followed by all non-blank inputs. -/
theorem runAdds_context (complete : String → Except Unit String)
    (inputs : List (ℚ × String)) :
    ∀ st : AssistantState, st.conversation_context.length ≤ 20 →
      (∀ p ∈ inputs, ¬ pyStrip p.2 = "") →
      (runAdds complete inputs st).conversation_context
        = lastN 20 (st.conversation_context ++ inputs.map Prod.snd) := by
  induction inputs with
  | nil =>
    intro st hlen _
    simp only [runAdds, List.foldl_nil, List.map_nil, List.append_nil]
    exact (lastN_of_length_le 20 _ hlen).symm
  | cons p rest ih =>
    intro st hlen hnb
    have hp : ¬ pyStrip p.2 = "" := hnb p (List.mem_cons_self p rest)
    have hstep := add_transcript_context complete p.1 st p.2 hp
    have hrest : ∀ q ∈ rest, ¬ pyStrip q.2 = "" :=
      fun q hq => hnb q (List.mem_cons_of_mem p hq)
    have hlen' : (add_transcript complete p.1 st p.2).state.conversation_context.length ≤ 20 := by
      rw [hstep]; exact lastN_length_le 20 _
    have : runAdds complete (p :: rest) st
        = runAdds complete rest (add_transcript complete p.1 st p.2).state := by
      simp [runAdds]
    rw [this, ih _ hlen' hrest, hstep, lastN_append_lastN]
    simp

/-! ## Claims -/

/-- C1, counterexample: a run of the transcription consumer in which the
window reaches its trigger size of 11 frames but every sample is zero
makes no transcription attempt at all (the silence gate discards the
window), contradicting "exactly one transcription attempt is made";
the rolling-overlap reset still happens. -/
theorem C1_counterexample :
    (processRun (fun _ => "hello") (List.replicate 11 [0]) initRec).attempts = []
    ∧ (processRun (fun _ => "hello") (List.replicate 11 [0]) initRec).state.buffer
      = [[0], [0]] := by
  decide

/-- C1, amended: for every run of the transcription consumer over exactly
11 enqueued frames whose concatenation passes the silence gate, exactly one
transcription attempt is made, on the concatenation of those frames, and
immediately afterwards the window holds exactly its last 2 frames. -/
theorem C1_windowing (transcribe : List Int → String)
    (c1 c2 c3 c4 c5 c6 c7 c8 c9 c10 c11 : List Int)
    (hg : silenceGate
        (List.flatten [c1, c2, c3, c4, c5, c6, c7, c8, c9, c10, c11]) = true) :
    (processRun transcribe [c1, c2, c3, c4, c5, c6, c7, c8, c9, c10, c11]
        initRec).attempts
      = [List.flatten [c1, c2, c3, c4, c5, c6, c7, c8, c9, c10, c11]]
    ∧ (processRun transcribe [c1, c2, c3, c4, c5, c6, c7, c8, c9, c10, c11]
        initRec).state.buffer = [c10, c11] := by
  have hsplit : ([c1, c2, c3, c4, c5, c6, c7, c8, c9, c10, c11] : List (List Int))
      = [c1, c2, c3, c4, c5, c6, c7, c8, c9, c10] ++ [c11] := rfl
  have h10 : processRun transcribe [c1, c2, c3, c4, c5, c6, c7, c8, c9, c10]
      initRec = ⟨⟨[c1, c2, c3, c4, c5, c6, c7, c8, c9, c10], []⟩, [], []⟩ := by
    rw [processRun_fill _ _ _ (by simp [initRec])]
    simp [initRec]
  rw [hsplit, processRun_append, h10]
  simp only [processRun]
  unfold processChunk
  simp only [List.cons_append, List.nil_append, List.length_cons,
    List.length_nil, hg]
  norm_num
  split <;> exact ⟨rfl, rfl⟩

/-- C1, witness. -/
theorem C1_windowing_witness :
    silenceGate (List.flatten [[1000], [1000], [1000], [1000], [1000], [1000],
      [1000], [1000], [1000], [1000], [1000]]) = true
    ∧ ((processRun (fun _ => "hello")
          [[1000], [1000], [1000], [1000], [1000], [1000], [1000], [1000],
            [1000], [1000], [1000]] initRec).attempts
        = [List.flatten [[1000], [1000], [1000], [1000], [1000], [1000],
            [1000], [1000], [1000], [1000], [1000]]]
      ∧ (processRun (fun _ => "hello")
          [[1000], [1000], [1000], [1000], [1000], [1000], [1000], [1000],
            [1000], [1000], [1000]] initRec).state.buffer = [[1000], [1000]]) :=
  ⟨by decide,
    C1_windowing (fun _ => "hello") [1000] [1000] [1000] [1000] [1000] [1000]
      [1000] [1000] [1000] [1000] [1000] (by decide)⟩

/-- C2: for every full window of 11 frames whose normalized mean absolute
amplitude is below the silence threshold 0.01 (exactly:
100·Σ|sample| < 32768·n), the recognizer is never invoked, no transcript
segment is appended and no callback fires, but the window is still reset to
its trailing 2 frames. -/
theorem C2_silence_gate (transcribe : List Int → String)
    (c1 c2 c3 c4 c5 c6 c7 c8 c9 c10 c11 : List Int)
    (h : 100 * sumAbs
          (List.flatten [c1, c2, c3, c4, c5, c6, c7, c8, c9, c10, c11])
        < 32768 *
          (List.flatten [c1, c2, c3, c4, c5, c6, c7, c8, c9, c10, c11]).length) :
    (processRun transcribe [c1, c2, c3, c4, c5, c6, c7, c8, c9, c10, c11]
        initRec).attempts = []
    ∧ (processRun transcribe [c1, c2, c3, c4, c5, c6, c7, c8, c9, c10, c11]
        initRec).emitted = []
    ∧ (processRun transcribe [c1, c2, c3, c4, c5, c6, c7, c8, c9, c10, c11]
        initRec).state.transcription = []
    ∧ (processRun transcribe [c1, c2, c3, c4, c5, c6, c7, c8, c9, c10, c11]
        initRec).state.buffer = [c10, c11] := by
  have hg : silenceGate
      (List.flatten [c1, c2, c3, c4, c5, c6, c7, c8, c9, c10, c11]) = false := by
    simp only [silenceGate, decide_eq_false_iff_not]
    exact Nat.lt_asymm h
  have hsplit : ([c1, c2, c3, c4, c5, c6, c7, c8, c9, c10, c11] : List (List Int))
      = [c1, c2, c3, c4, c5, c6, c7, c8, c9, c10] ++ [c11] := rfl
  have h10 : processRun transcribe [c1, c2, c3, c4, c5, c6, c7, c8, c9, c10]
      initRec = ⟨⟨[c1, c2, c3, c4, c5, c6, c7, c8, c9, c10], []⟩, [], []⟩ := by
    rw [processRun_fill _ _ _ (by simp [initRec])]
    simp [initRec]
  rw [hsplit, processRun_append, h10]
  simp only [processRun]
  unfold processChunk
  simp only [List.cons_append, List.nil_append, List.length_cons,
    List.length_nil, hg]
  norm_num
  rfl

/-- C2, witness. -/
theorem C2_silence_gate_witness :
    100 * sumAbs (List.flatten [[0], [0], [0], [0], [0], [0], [0], [0], [0],
        [0], [0]])
      < 32768 * (List.flatten ([[0], [0], [0], [0], [0], [0], [0], [0], [0],
        [0], [0]] : List (List Int))).length
    ∧ ((processRun (fun _ => "hello")
          [[0], [0], [0], [0], [0], [0], [0], [0], [0], [0], [0]]
          initRec).attempts = []
      ∧ (processRun (fun _ => "hello")
          [[0], [0], [0], [0], [0], [0], [0], [0], [0], [0], [0]]
          initRec).emitted = []
      ∧ (processRun (fun _ => "hello")
          [[0], [0], [0], [0], [0], [0], [0], [0], [0], [0], [0]]
          initRec).state.transcription = []
      ∧ (processRun (fun _ => "hello")
          [[0], [0], [0], [0], [0], [0], [0], [0], [0], [0], [0]]
          initRec).state.buffer = [[0], [0]]) :=
  ⟨by decide,
    C2_silence_gate (fun _ => "hello") [0] [0] [0] [0] [0] [0] [0] [0] [0] [0]
      [0] (by decide)⟩

/-- C8, counterexample: a device read produces a frame of 4000 samples,
not 2500. -/
theorem C8_counterexample : (captureFrame (fun _ => 0)).length ≠ 2500 := by
  rw [captureFrame, List.length_map, List.length_range]
  decide

/-- C8, amended: every AudioFrame produced by the capture producer is a
buffer of exactly 4000 samples of 16 kHz mono 16-bit signed PCM (each
device read requests 4000 samples, a quarter second, so the 11-frame
trigger window is about 2.75 s). -/
theorem C8_frame_format (device : Nat → Int) :
    (captureFrame device).length = 4000
    ∧ readSize = framesPerBuffer
    ∧ sampleRate = 16000
    ∧ numChannels = 1
    ∧ sampleBits = 16
    ∧ 4 * readSize = sampleRate := by
  refine ⟨?_, rfl, rfl, rfl, rfl, rfl⟩
  rw [captureFrame, List.length_map, List.length_range]
  rfl

/-- The insight step issues a call exactly when both gates pass. -/
theorem generate_called_eq (complete : String → Except Unit String)
    (now : ℚ) (st : AssistantState) :
    (generate_real_time_insights complete now st).called
      = (decide (st.insight_cooldown ≤ now - st.last_insight_time)
          && decide (3 ≤ st.conversation_context.length)) := by
  unfold generate_real_time_insights
  by_cases h1 : now - st.last_insight_time < st.insight_cooldown
  · simp [h1, not_le.mpr h1]
  · by_cases h2 : st.conversation_context.length < 3
    · simp [h1, h2, not_le.mpr h2]
    · rcases hc : complete (insightsPrompt (spaceJoin st.conversation_context))
        with e | content
      · simp [h1, h2, hc, le_of_not_lt h1, le_of_not_lt h2]
      · cases hb : extractBatch content with
        | none => simp [h1, h2, hc, hb, le_of_not_lt h1, le_of_not_lt h2]
        | some v => simp [h1, h2, hc, hb, le_of_not_lt h1, le_of_not_lt h2]

/-- C3: for every segment-driven insight check, a completion-collaborator
call is issued if and only if both `now - last_insight_time ≥ cooldown`
(default 30) and the rolling context holds at least 3 segments; when either
gate fails, the check returns with the state unchanged, no call and no
callback. -/
theorem C3_insight_gates (complete : String → Except Unit String)
    (now : ℚ) (st : AssistantState) (title : String) :
    ((generate_real_time_insights complete now st).called = true
      ↔ (st.insight_cooldown ≤ now - st.last_insight_time
          ∧ 3 ≤ st.conversation_context.length))
    ∧ (¬ (st.insight_cooldown ≤ now - st.last_insight_time
          ∧ 3 ≤ st.conversation_context.length) →
        generate_real_time_insights complete now st = ⟨st, false, []⟩)
    ∧ (initialAssistant title).insight_cooldown = 30 := by
  refine ⟨?_, ?_, rfl⟩
  · rw [generate_called_eq]
    simp
  · intro h
    unfold generate_real_time_insights
    by_cases hA : st.insight_cooldown ≤ now - st.last_insight_time
    · have hB : st.conversation_context.length < 3 := by
        rcases Decidable.not_and_iff_or_not.mp h with hA' | hB'
        · exact absurd hA hA'
        · exact Nat.lt_of_not_le hB'
      rw [if_neg (not_lt.mpr hA), if_pos hB]
    · rw [if_pos (not_le.mp hA)]

/-- C3, witness. -/
theorem C3_insight_gates_witness :
    ¬ ((initialAssistant "m").insight_cooldown
        ≤ 5 - (initialAssistant "m").last_insight_time
      ∧ 3 ≤ (initialAssistant "m").conversation_context.length)
    ∧ generate_real_time_insights (fun _ => Except.error ()) 5
        (initialAssistant "m") = ⟨initialAssistant "m", false, []⟩ := by
  have h : ¬ ((initialAssistant "m").insight_cooldown
      ≤ 5 - (initialAssistant "m").last_insight_time
    ∧ 3 ≤ (initialAssistant "m").conversation_context.length) := by
    simp [initialAssistant]
  exact ⟨h,
    (C3_insight_gates (fun _ => Except.error ()) 5 (initialAssistant "m")
      "m").2.1 h⟩

/-- C4: after any sequence of `add_transcript` calls on non-blank segments
(from any state whose rolling context respects the 20-entry cap), the
rolling context holds exactly the last 20 of the old context followed by
the new segments in arrival order, and so never exceeds 20 entries; in
particular 25 appends from a fresh state leave exactly the last 20,
oldest first. -/
theorem C4_context_cap (complete : String → Except Unit String)
    (inputs : List (ℚ × String)) (st : AssistantState)
    (hlen : st.conversation_context.length ≤ 20)
    (hnb : ∀ p ∈ inputs, ¬ pyStrip p.2 = "") :
    (runAdds complete inputs st).conversation_context
      = lastN 20 (st.conversation_context ++ inputs.map Prod.snd)
    ∧ (runAdds complete inputs st).conversation_context.length ≤ 20 := by
  have h := runAdds_context complete inputs st hlen hnb
  exact ⟨h, h ▸ lastN_length_le 20 _⟩

/-- C4, witness. -/
theorem C4_context_cap_witness :
    ((initialAssistant "m").conversation_context.length ≤ 20
      ∧ ∀ p ∈ c4Inputs, ¬ pyStrip p.2 = "")
    ∧ ((runAdds (fun _ => Except.error ()) c4Inputs
          (initialAssistant "m")).conversation_context
        = lastN 20 ((initialAssistant "m").conversation_context
            ++ c4Inputs.map Prod.snd)
      ∧ (runAdds (fun _ => Except.error ()) c4Inputs
          (initialAssistant "m")).conversation_context.length ≤ 20) :=
  ⟨⟨by decide, by decide⟩,
    C4_context_cap (fun _ => Except.error ()) c4Inputs (initialAssistant "m")
      (by decide) (by decide)⟩

/-- C10: `add_transcript` on a blank (empty or whitespace-only) segment is
a no-op: the state is returned unchanged — transcript log, rolling
context, summary, action items and `last_insight_time` included — with no
completion-collaborator call and no callback. -/
theorem C10_blank_segment_noop (complete : String → Except Unit String)
    (now : ℚ) (st : AssistantState) (text_segment : String)
    (h : pyStrip text_segment = "") :
    add_transcript complete now st text_segment = ⟨st, false, []⟩ := by
  unfold add_transcript
  rw [if_pos h]

/-- C5, counterexample: on the completion response
`"There are no action items."`, which contains no bracketed substring, the
`ValueError` escapes the inner handler, so `extract_action_items` returns a
sentinel but leaves the stored action-item list stale (still the old list,
not a single sentinel item), contradicting "replaced ..., never left
stale". -/
theorem C5_counterexample :
    (extract_action_items (fun _ => Except.ok "There are no action items.")
        c5State).1.action_items = c5State.action_items
    ∧ (extract_action_items (fun _ => Except.ok "There are no action items.")
        c5State).2 = actionErrorSentinel
    ∧ c5State.action_items ≠ actionParseSentinel
    ∧ c5State.action_items ≠ actionErrorSentinel := by
  refine ⟨rfl, rfl, ?_, ?_⟩ <;>
    simp [c5State, actionParseSentinel, actionErrorSentinel]

/-- C5, amended: when the completion response for action-item extraction
cannot be parsed as a JSON array, `extract_action_items` never raises, and:
if a bracketed substring exists (or the stripped response is bracket
delimited) but fails to parse, the stored action-item list is replaced with
exactly one parse-failure sentinel item, which is also returned; if no
bracketed substring exists at all, a one-item extraction-failure sentinel
is returned but the stored list is left unchanged (stale). -/
theorem C5_action_parse_failure (complete : String → Except Unit String)
    (st : AssistantState) (content : String)
    (hne : st.meeting_transcript.isEmpty = false)
    (hc : complete (actionPrompt (spaceJoin st.meeting_transcript))
      = Except.ok content) :
    ((startsWithChar (pyStrip content) '['
        && endsWithChar (pyStrip content) ']') = true →
      jsonParse content = none →
      extract_action_items complete st
        = ({ st with action_items := actionParseSentinel }, actionParseSentinel))
    ∧ ((startsWithChar (pyStrip content) '['
        && endsWithChar (pyStrip content) ']') = false →
      (0 ≤ pyFind content '[' ∧ pyFind content '[' < pyRfind content ']' + 1) →
      jsonParse (pySlice content (pyFind content '[')
        (pyRfind content ']' + 1)) = none →
      extract_action_items complete st
        = ({ st with action_items := actionParseSentinel }, actionParseSentinel))
    ∧ ((startsWithChar (pyStrip content) '['
        && endsWithChar (pyStrip content) ']') = false →
      ¬ (0 ≤ pyFind content '[' ∧ pyFind content '[' < pyRfind content ']' + 1) →
      extract_action_items complete st = (st, actionErrorSentinel)) := by
  simp only [extract_action_items]
  rw [if_neg (by simp [hne]), hc]
  dsimp only
  refine ⟨?_, ?_, ?_⟩
  · intro hb hp
    rw [if_pos hb, hp]
  · intro hb hcond hp
    rw [if_neg (by simp [hb]), if_pos hcond, hp]
  · intro hb hcond
    rw [if_neg (by simp [hb]), if_neg hcond]

/-- C5, witness (the bracketed-but-unparseable branch). -/
theorem C5_action_parse_failure_witness :
    (c5State.meeting_transcript.isEmpty = false
      ∧ (startsWithChar (pyStrip "x [not json] y") '['
          && endsWithChar (pyStrip "x [not json] y") ']') = false
      ∧ (0 ≤ pyFind "x [not json] y" '['
          ∧ pyFind "x [not json] y" '[' < pyRfind "x [not json] y" ']' + 1)
      ∧ jsonParse (pySlice "x [not json] y" (pyFind "x [not json] y" '[')
          (pyRfind "x [not json] y" ']' + 1)) = none)
    ∧ extract_action_items (fun _ => Except.ok "x [not json] y") c5State
      = ({ c5State with action_items := actionParseSentinel },
          actionParseSentinel) :=
  ⟨⟨rfl, by decide, by decide, rfl⟩,
    (C5_action_parse_failure (fun _ => Except.ok "x [not json] y") c5State
      "x [not json] y" rfl rfl).2.1 (by decide) (by decide) rfl⟩

/-- C6: a failed summary refresh (the completion call raises) leaves the
stored summary — indeed the whole state — unchanged; a successful refresh
replaces the stored summary with the collaborator's response to the prompt
built from the previous summary and the most recent 10 transcript
segments. -/
theorem C6_summary_refresh (complete : String → Except Unit String)
    (st : AssistantState) :
    (complete (summaryPrompt st.current_summary
        (spaceJoin (lastN 10 st.meeting_transcript))) = Except.error () →
      (update_summary complete st).1 = st)
    ∧ (∀ content, st.meeting_transcript.isEmpty = false →
        complete (summaryPrompt st.current_summary
          (spaceJoin (lastN 10 st.meeting_transcript))) = Except.ok content →
        update_summary complete st
          = ({ st with current_summary := content }, content)) := by
  simp only [update_summary]
  constructor
  · intro hc
    split
    · rfl
    · rw [hc]
  · intro content hne hc
    rw [if_neg (by simp [hne]), hc]

/-- C6, witness (the success clause). -/
theorem C6_summary_refresh_witness :
    c6State.meeting_transcript.isEmpty = false
    ∧ update_summary (fun _ => Except.ok "S") c6State
      = ({ c6State with current_summary := "S" }, "S") :=
  ⟨rfl, (C6_summary_refresh (fun _ => Except.ok "S") c6State).2 "S" rfl rfl⟩

/-- C7: the insight-response parser accepts a pure JSON object as is, and
recovers an embedded object by taking the substring from the first `{` to
the last `}`; on the example response it yields exactly one insight with
title "A" and detail "B". -/
theorem C7_json_recovery :
    (∀ content : String,
      (startsWithChar (pyStrip content) '{'
          && endsWithChar (pyStrip content) '}') = true →
        parseInsightJson content = jsonParse content)
    ∧ (∀ content : String,
      (startsWithChar (pyStrip content) '{'
          && endsWithChar (pyStrip content) '}') = false →
        0 ≤ pyFind content '{' →
        pyFind content '{' < pyRfind content '}' + 1 →
        parseInsightJson content
          = jsonParse (pySlice content (pyFind content '{')
              (pyRfind content '}' + 1)))
    ∧ extractBatch insightReplyExample
      = some (Json.arr [Json.obj [("title", Json.str "A"),
          ("detail", Json.str "B")]]) := by
  refine ⟨?_, ?_, rfl⟩
  · intro content hb
    simp only [parseInsightJson]
    rw [if_pos hb]
  · intro content hb h1 h2
    simp only [parseInsightJson]
    rw [if_neg (by simp [hb]), if_pos ⟨h1, h2⟩]

/-- C7, witness. -/
theorem C7_json_recovery_witness :
    ((startsWithChar (pyStrip insightReplyExample) '{'
        && endsWithChar (pyStrip insightReplyExample) '}') = false
      ∧ 0 ≤ pyFind insightReplyExample '{'
      ∧ pyFind insightReplyExample '{' < pyRfind insightReplyExample '}' + 1)
    ∧ parseInsightJson insightReplyExample
      = jsonParse (pySlice insightReplyExample (pyFind insightReplyExample '{')
          (pyRfind insightReplyExample '}' + 1)) :=
  ⟨⟨by decide, by decide, by decide⟩,
    C7_json_recovery.2.1 insightReplyExample (by decide) (by decide)
      (by decide)⟩

/-- C9, counterexample: two successful insight generations with different
batches leave identical session state and identical exported meeting data
— the state stores no current-insights list and the export does not record
the batch, contradicting "the session state records the latest batch for
notification/export". -/
theorem C9_counterexample :
    (generate_real_time_insights (fun _ => Except.ok c9ReplyA) 30
        c9State).batches
      ≠ (generate_real_time_insights (fun _ => Except.ok c9ReplyC) 30
        c9State).batches
    ∧ (generate_real_time_insights (fun _ => Except.ok c9ReplyA) 30
        c9State).state
      = (generate_real_time_insights (fun _ => Except.ok c9ReplyC) 30
        c9State).state
    ∧ export_meeting_data "2026-10-12 00:00:00"
        (generate_real_time_insights (fun _ => Except.ok c9ReplyA) 30
          c9State).state
      = export_meeting_data "2026-10-12 00:00:00" c9State := by
  have hA : generate_real_time_insights (fun _ => Except.ok c9ReplyA) 30 c9State
      = ⟨{ c9State with last_insight_time := 30 }, true,
          [Json.arr [Json.obj [("title", Json.str "A"),
            ("detail", Json.str "B")]]]⟩ := by
    with_unfolding_all rfl
  have hC : generate_real_time_insights (fun _ => Except.ok c9ReplyC) 30 c9State
      = ⟨{ c9State with last_insight_time := 30 }, true,
          [Json.arr [Json.obj [("title", Json.str "C"),
            ("detail", Json.str "D")]]]⟩ := by
    with_unfolding_all rfl
  rw [hA, hC]
  refine ⟨?_, rfl, rfl⟩
  simp

/-- C9, amended: after every successful insight generation (cooldown
elapsed, at least 3 context segments, response parsed to a non-empty
`insights` value), the state changes only by `last_insight_time := now`
and the callback is invoked once with the batch; no current-insights field
exists, and exported meeting data is unaffected by the success. -/
theorem C9_insight_success (complete : String → Except Unit String)
    (now : ℚ) (st : AssistantState) (content : String) (v : Json) (d : String)
    (h1 : st.insight_cooldown ≤ now - st.last_insight_time)
    (h2 : 3 ≤ st.conversation_context.length)
    (hc : complete (insightsPrompt (spaceJoin st.conversation_context))
      = Except.ok content)
    (hb : extractBatch content = some v) :
    generate_real_time_insights complete now st
      = ⟨{ st with last_insight_time := now }, true, [v]⟩
    ∧ export_meeting_data d { st with last_insight_time := now }
      = export_meeting_data d st := by
  refine ⟨?_, rfl⟩
  unfold generate_real_time_insights
  rw [if_neg (not_lt.mpr h1), if_neg (not_lt.mpr h2), hc]
  dsimp only
  rw [hb]

/-- C9, witness. -/
theorem C9_insight_success_witness :
    (c9State.insight_cooldown ≤ 30 - c9State.last_insight_time
      ∧ 3 ≤ c9State.conversation_context.length
      ∧ extractBatch c9ReplyA
        = some (Json.arr [Json.obj [("title", Json.str "A"),
            ("detail", Json.str "B")]]))
    ∧ (generate_real_time_insights (fun _ => Except.ok c9ReplyA) 30 c9State
        = ⟨{ c9State with last_insight_time := 30 }, true,
            [Json.arr [Json.obj [("title", Json.str "A"),
              ("detail", Json.str "B")]]]⟩
      ∧ export_meeting_data "d" { c9State with last_insight_time := 30 }
        = export_meeting_data "d" c9State) :=
  ⟨⟨by norm_num [c9State], by decide, rfl⟩,
    C9_insight_success (fun _ => Except.ok c9ReplyA) 30 c9State c9ReplyA
      (Json.arr [Json.obj [("title", Json.str "A"), ("detail", Json.str "B")]])
      "d" (by norm_num [c9State]) (by decide) rfl rfl⟩

/-- C10, witness. -/
theorem C10_blank_segment_noop_witness :
    pyStrip " \n  " = ""
    ∧ add_transcript (fun _ => Except.error ()) 7 (initialAssistant "m") " \n  "
      = ⟨initialAssistant "m", false, []⟩ :=
  ⟨by decide,
    C10_blank_segment_noop (fun _ => Except.error ()) 7 (initialAssistant "m")
      " \n  " (by decide)⟩

end MeetingSidekick
